import Mathlib

/-!
Verification of the bcos-pbft consensus engine (PBFTEngine.cpp, PBFT.h)
against its natural-language specification.

The engine source is shallowly embedded below: the pure control flow of
each handler in `PBFTEngine.cpp` is translated into executable Lean
functions.  Operations of `PBFTCacheProcessor`, `PBFTConfig` and
`PBFTLogSync` whose implementations are not part of the provided engine
source are abstracted as opaque function parameters gathered in
`EngineEnv`; the in-memory caches the engine mutates are carried
explicitly in `CacheState`.
-/

namespace BcosPbft

/-- Result of a PBFT message check, mirroring the source's `CheckResult`. -/
inductive CheckResult where
  | VALID
  | INVALID
deriving DecidableEq

/-- PBFT packet types routed by the engine, mirroring `PacketType`. -/
inductive PacketType where
  | PrePreparePacket
  | PreparePacket
  | CommitPacket
  | ViewChangePacket
  | NewViewPacket
  | CommittedProposalRequest
  | PreparedProposalRequest
  | otherPacket
deriving DecidableEq

/-- A PBFT proposal: the `(index, hash)` pair the engine decides on.
Hashes are modelled as natural numbers. -/
structure PBFTProposal where
  index : Nat
  hash : Nat
deriving DecidableEq

/-- A PrePrepare / Prepare / Commit consensus message.  The field
`sigValid` abstracts the result of `verifySignature` run with the
sender's public key. -/
structure PBFTMessage where
  index : Nat
  view : Nat
  generatedFrom : Nat
  hash : Nat
  sigValid : Bool
deriving DecidableEq

/-- A ViewChange message: carries the sender's highest committed proposal
and its prepared-but-not-committed proposals. -/
structure ViewChangeMsg where
  view : Nat
  generatedFrom : Nat
  committedProposal : PBFTProposal
  preparedProposals : List PBFTMessage
  sigValid : Bool
deriving DecidableEq

/-- A NewView message: carries the justifying ViewChange list and the
reissued PrePrepare list.  The source's leader check reads the message's
`index()` field. -/
structure NewViewMsg where
  view : Nat
  index : Nat
  generatedFrom : Nat
  viewChangeMsgList : List ViewChangeMsg
  prePrepareList : List PBFTMessage
  sigValid : Bool
deriving DecidableEq

/-- The slice of `PBFTConfig` the engine handlers read.  `nodes` is the
consensus-node list as `(node index, weight)` pairs; `leaderIndex` is the
deterministic leader function for the current view. -/
structure PBFTConfig where
  view : Nat
  toView : Nat
  nodeIndex : Nat
  progressedIndex : Nat
  highWaterMark : Nat
  committedProposal : PBFTProposal
  minRequiredQuorum : Nat
  nodes : List (Nat × Nat)
  leaderAfterViewChange : Nat
  leaderIndex : Nat → Nat
  emptyHash : Nat

/-- Looks up a consensus node by node index and returns its weight,
mirroring `PBFTConfig::getConsensusNodeByIndex` (absent node: none). -/
def getConsensusNodeByIndex (cfg : PBFTConfig) (idx : Nat) : Option Nat :=
  (cfg.nodes.find? (fun p => p.1 == idx)).map Prod.snd

/-- Opaque environment abstracting the `PBFTCacheProcessor`, `PBFTConfig`
and `PBFTLogSync` operations invoked by the engine but implemented
outside the provided engine source. -/
structure EngineEnv where
  existPrePrepare : PBFTMessage → Bool
  conflictWithPrecommitReq : PBFTMessage → Bool
  conflictWithProcessedReq : PBFTMessage → Bool
  checkPrecommitMsg : PBFTMessage → Bool
  tryToFillProposal : PBFTMessage → Bool
  checkAndTryIntoNewView : List ViewChangeMsg → Option NewViewMsg
  removeInvalidViewChange : List ViewChangeMsg → List ViewChangeMsg
  populateCommittedProposal : PBFTProposal
  preCommitCachesWithoutData : List PBFTMessage

/-- The engine-side caches mutated by the handlers, modelled as plain
lists of the inserted messages (insertion order preserved). -/
structure CacheState where
  prePrepareCache : List PBFTMessage
  prepareCache : List PBFTMessage
  commitCache : List PBFTMessage
  viewChangeCache : List ViewChangeMsg
deriving DecidableEq

/-- The empty cache state. -/
def emptyCaches : CacheState :=
  { prePrepareCache := [], prepareCache := [], commitCache := [], viewChangeCache := [] }

/-- Translation of `PBFTEngine::checkPBFTMsgState`: reject when the index
is below the progressed index, at or beyond the high water mark, or the
view is below the config's current view. -/
def checkPBFTMsgState (cfg : PBFTConfig) (index view : Nat) : CheckResult :=
  if index < cfg.progressedIndex ∨ cfg.highWaterMark ≤ index then .INVALID
  else if view < cfg.view then .INVALID
  else .VALID

/-- Translation of `PBFTEngine::checkSignature`: fetch the sender's
public key from the consensus-node list (null key rejects), then verify
the signature. -/
def checkSignature (cfg : PBFTConfig) (generatedFrom : Nat) (sigValid : Bool) : CheckResult :=
  match getConsensusNodeByIndex cfg generatedFrom with
  | none => .INVALID
  | some _ => if sigValid then .VALID else .INVALID

/-- Translation of `PBFTEngine::checkPrePrepareMsg`: existence check,
precommit-conflict check, then the state check. -/
def checkPrePrepareMsg (cfg : PBFTConfig) (env : EngineEnv) (m : PBFTMessage) : CheckResult :=
  if env.existPrePrepare m then .INVALID
  else if env.conflictWithPrecommitReq m then .INVALID
  else checkPBFTMsgState cfg m.index m.view

/-- The Prepare message the engine builds in `broadcastPrepareMsg` from a
PrePrepare: populated with the config's view and the local node index,
signed by the local key pair. -/
def localPrepareMsg (cfg : PBFTConfig) (m : PBFTMessage) : PBFTMessage :=
  { index := m.index, view := cfg.view, generatedFrom := cfg.nodeIndex,
    hash := m.hash, sigValid := true }

/-- Result of `handlePrePrepareMsg`: the returned boolean, the caches
after the call, whether a Prepare was broadcast, and whether an
asynchronous proposal verification was requested. -/
structure PrePrepareResult where
  ret : Bool
  caches : CacheState
  broadcastPrepare : Bool
  verifyRequested : Bool
deriving DecidableEq

/-- Translation of `PBFTEngine::handlePrePrepareMsg`.  When the message
is not generated from a NewView the leader identity and the sender
signature are checked; with `needVerifyProposal = false` the message is
cached and `broadcastPrepareMsg` adds the local Prepare to the cache and
broadcasts it; otherwise an asynchronous verification is requested. -/
def handlePrePrepareMsg (cfg : PBFTConfig) (env : EngineEnv) (st : CacheState)
    (m : PBFTMessage) (needVerifyProposal generatedFromNewView : Bool) : PrePrepareResult :=
  if checkPrePrepareMsg cfg env m = .INVALID then ⟨false, st, false, false⟩
  else if generatedFromNewView = false ∧ cfg.leaderIndex m.index ≠ m.generatedFrom then
    ⟨false, st, false, false⟩
  else if generatedFromNewView = false ∧ checkSignature cfg m.generatedFrom m.sigValid = .INVALID then
    ⟨false, st, false, false⟩
  else if needVerifyProposal = false then
    ⟨true,
     { st with prePrepareCache := st.prePrepareCache ++ [m],
               prepareCache := st.prepareCache ++ [localPrepareMsg cfg m] },
     true, false⟩
  else ⟨true, st, false, true⟩

/-- Translation of the verify-proposal callback installed by
`handlePrePrepareMsg` when `needVerifyProposal` is true: on a non-success
error code it returns without effect; otherwise it re-enters
`handlePrePrepareMsg(msg, false)`.  In the source the `verifyResult =
false` case only logs "verify proposal failed" and falls through to that
same re-entry (there is no early return). -/
def onVerifyProposalFinished (cfg : PBFTConfig) (env : EngineEnv) (st : CacheState)
    (m : PBFTMessage) (errorIsSuccess verifyResult : Bool) : PrePrepareResult :=
  if errorIsSuccess = false then ⟨false, st, false, false⟩
  else
    let _ := verifyResult
    handlePrePrepareMsg cfg env st m false false

/-- Translation of `PBFTEngine::checkPBFTMsg` (shared by Prepare and
Commit): state check, self-origin rejection, conflict check against a
cached PrePrepare, then signature check. -/
def checkPBFTMsg (cfg : PBFTConfig) (env : EngineEnv) (m : PBFTMessage) : CheckResult :=
  if checkPBFTMsgState cfg m.index m.view = .INVALID then .INVALID
  else if m.generatedFrom = cfg.nodeIndex then .INVALID
  else if env.existPrePrepare m ∧ env.conflictWithProcessedReq m then .INVALID
  else checkSignature cfg m.generatedFrom m.sigValid

/-- Translation of `PBFTEngine::handlePrepareMsg`: check, then
`addPrepareCache` and `checkAndPreCommit`. -/
def handlePrepareMsg (cfg : PBFTConfig) (env : EngineEnv) (st : CacheState)
    (m : PBFTMessage) : Bool × CacheState :=
  if checkPBFTMsg cfg env m = .INVALID then (false, st)
  else (true, { st with prepareCache := st.prepareCache ++ [m] })

/-- Translation of `PBFTEngine::handleCommitMsg`: check, then
`addCommitReq` and `checkAndCommit`. -/
def handleCommitMsg (cfg : PBFTConfig) (env : EngineEnv) (st : CacheState)
    (m : PBFTMessage) : Bool × CacheState :=
  if checkPBFTMsg cfg env m = .INVALID then (false, st)
  else (true, { st with commitCache := st.commitCache ++ [m] })

/-- Translation of `PBFTEngine::isValidViewChangeMsg`: checks the
committed-proposal index, the view, the committed-proposal hash, and each
carried prepared proposal via `checkPrecommitMsg`.  The source then calls
`checkSignature(_viewChangeMsg)` but discards its result, so the
signature has no effect on the returned value. -/
def isValidViewChangeMsg (cfg : PBFTConfig) (env : EngineEnv) (vc : ViewChangeMsg) : Bool :=
  if vc.committedProposal.index < cfg.committedProposal.index then false
  else if vc.view ≤ cfg.view then false
  else if vc.committedProposal.index = cfg.committedProposal.index ∧
          vc.committedProposal.hash ≠ cfg.committedProposal.hash then false
  else if ¬ (vc.preparedProposals.all env.checkPrecommitMsg = true) then false
  else
    let _ := checkSignature cfg vc.generatedFrom vc.sigValid
    true

/-- Translation of `PBFTEngine::handleViewChangeMsg`: on a valid message,
store it via `addViewChangeReq` and run `checkAndTryIntoNewView`; the
third component is the NewView handed to `reHandlePrePrepareProposals`,
if any. -/
def handleViewChangeMsg (cfg : PBFTConfig) (env : EngineEnv) (st : CacheState)
    (vc : ViewChangeMsg) : Bool × CacheState × Option NewViewMsg :=
  if isValidViewChangeMsg cfg env vc = false then (false, st, none)
  else
    (true, { st with viewChangeCache := st.viewChangeCache ++ [vc] },
     env.checkAndTryIntoNewView (st.viewChangeCache ++ [vc]))

/-- The weight accumulation loop of `PBFTEngine::isValidNewViewMsg`:
returns none when some embedded ViewChange fails `isValidViewChangeMsg`,
otherwise the sum of the senders' weights, one summand per listed message
(a sender present in the consensus-node list contributes its weight for
every occurrence; an unknown sender is skipped). -/
def newViewWeight (cfg : PBFTConfig) (env : EngineEnv) : List ViewChangeMsg → Option Nat
  | [] => some 0
  | vc :: rest =>
    if isValidViewChangeMsg cfg env vc = false then none
    else
      match newViewWeight cfg env rest with
      | none => none
      | some w =>
        match getConsensusNodeByIndex cfg vc.generatedFrom with
        | none => some w
        | some weight => some (w + weight)

/-- Translation of `PBFTEngine::isValidNewViewMsg`.  The source logs
"InvalidNewViewMsg for invalid nextLeader" when
`leaderAfterViewChange() ≠ msg.index()` but does not return false there;
the final `checkSignature(_newViewMsg)` result is likewise discarded. -/
def isValidNewViewMsg (cfg : PBFTConfig) (env : EngineEnv) (nv : NewViewMsg) : Bool :=
  let _leaderMismatchLogged := cfg.leaderAfterViewChange ≠ nv.index
  if nv.view ≤ cfg.view then false
  else
    match newViewWeight cfg env nv.viewChangeMsgList with
    | none => false
    | some weight =>
      if weight < cfg.minRequiredQuorum then false
      else
        let _ := checkSignature cfg nv.generatedFrom nv.sigValid
        true

/-- Translation of `PBFTEngine::handleNewViewMsg`: the second component
records whether `reHandlePrePrepareProposals` was invoked. -/
def handleNewViewMsg (cfg : PBFTConfig) (env : EngineEnv) (nv : NewViewMsg) : Bool × Bool :=
  if isValidNewViewMsg cfg env nv = false then (false, false)
  else (true, true)

/-- Per-PrePrepare outcome inside `reHandlePrePrepareProposals`. -/
inductive ReHandleAction where
  | handledPrePrepare (m : PBFTMessage) (accepted : Bool)
  | requestedPrecommitData (m : PBFTMessage)
deriving DecidableEq

/-- One iteration of the loop in
`PBFTEngine::reHandlePrePrepareProposals`: an empty-block PrePrepare
(hash = emptyHash) and a cache hit are both fed to
`handlePrePrepareMsg(prePrepare, false, false)`; a cache miss issues a
log-sync `requestPrecommitData`. -/
def reHandleStep (cfg : PBFTConfig) (env : EngineEnv)
    (acc : CacheState × List ReHandleAction) (p : PBFTMessage) :
    CacheState × List ReHandleAction :=
  if p.hash = cfg.emptyHash then
    let r := handlePrePrepareMsg cfg env acc.1 p false false
    (r.caches, acc.2 ++ [.handledPrePrepare p r.ret])
  else if env.tryToFillProposal p then
    let r := handlePrePrepareMsg cfg env acc.1 p false false
    (r.caches, acc.2 ++ [.handledPrePrepare p r.ret])
  else
    (acc.1, acc.2 ++ [.requestedPrecommitData p])

/-- Translation of `PBFTEngine::reachNewView`: reset the timer's change
cycle, set the view to `toView`, then increment `toView`. -/
def reachNewView (cfg : PBFTConfig) : PBFTConfig :=
  { cfg with view := cfg.toView, toView := cfg.toView + 1 }

/-- Translation of `PBFTEngine::reHandlePrePrepareProposals`: iterate
`reHandleStep` over the NewView's PrePrepare list, then `reachNewView`. -/
def reHandlePrePrepareProposals (cfg : PBFTConfig) (env : EngineEnv) (st : CacheState)
    (nv : NewViewMsg) : PBFTConfig × CacheState × List ReHandleAction :=
  let r := nv.prePrepareList.foldl (reHandleStep cfg env) (st, [])
  (reachNewView cfg, r.1, r.2)

/-- Observable operations performed by `onTimeout` and
`broadcastViewChangeReq`, in invocation order. -/
inductive EngineAction where
  | incToView (delta : Nat)
  | removeInvalidViewChange
  | broadcastViewChange (vc : ViewChangeMsg)
  | addViewChangeReq (vc : ViewChangeMsg)
  | checkNewViewQuorum
  | reHandleNewView (nv : NewViewMsg)
deriving DecidableEq

/-- The ViewChange request built in `PBFTEngine::broadcastViewChangeReq`:
view and sender from the config, committed proposal from
`populateCommittedProposal`, prepared proposals from
`preCommitCachesWithoutData`, signed by the local key pair. -/
def makeViewChangeReq (cfg : PBFTConfig) (env : EngineEnv) : ViewChangeMsg :=
  { view := cfg.view, generatedFrom := cfg.nodeIndex,
    committedProposal := env.populateCommittedProposal,
    preparedProposals := env.preCommitCachesWithoutData,
    sigValid := true }

/-- Translation of `PBFTEngine::broadcastViewChangeReq`: build the
ViewChange, broadcast it, add it to the cache via `addViewChangeReq`, run
`checkAndTryIntoNewView`, and on a produced NewView invoke
`reHandlePrePrepareProposals`. -/
def broadcastViewChangeReq (cfg : PBFTConfig) (env : EngineEnv) (st : CacheState) :
    CacheState × List EngineAction :=
  let vc := makeViewChangeReq cfg env
  let st1 := { st with viewChangeCache := st.viewChangeCache ++ [vc] }
  let acts := [EngineAction.broadcastViewChange vc, EngineAction.addViewChangeReq vc,
               EngineAction.checkNewViewQuorum]
  match env.checkAndTryIntoNewView st1.viewChangeCache with
  | some nv => (st1, acts ++ [EngineAction.reHandleNewView nv])
  | none => (st1, acts)

/-- Translation of `PBFTEngine::onTimeout`: `incToView(1)`,
`removeInvalidViewChange()`, then `broadcastViewChangeReq()`. -/
def onTimeout (cfg : PBFTConfig) (env : EngineEnv) (st : CacheState) :
    PBFTConfig × CacheState × List EngineAction :=
  let cfg1 := { cfg with toView := cfg.toView + 1 }
  let st1 := { st with viewChangeCache := env.removeInvalidViewChange st.viewChangeCache }
  let r := broadcastViewChangeReq cfg1 env st1
  (cfg1, r.1, EngineAction.incToView 1 :: EngineAction.removeInvalidViewChange :: r.2)

/-- Outcome of `PBFTEngine::onReceivePBFTMessage` on one delivery. -/
inductive RecvOutcome where
  | droppedTransportError
  | droppedNotConsensusNode
  | droppedDecodeException
  | routedToLogSyncCommitted
  | routedToLogSyncPrepared
  | enqueued (packet : PacketType)
deriving DecidableEq

/-- Translation of `PBFTEngine::onReceivePBFTMessage`: non-success
transport envelopes and non-consensus nodes are dropped; a decode
exception is caught by the surrounding try/catch and logged; log-sync
requests are routed directly; every other decoded packet is pushed onto
the message queue.  The decoded packet type is abstracted as an
`Option PacketType` (none = the codec threw). -/
def onReceivePBFTMessage (errorIsSuccess isConsensusNode : Bool)
    (decoded : Option PacketType) : RecvOutcome :=
  if errorIsSuccess = false then .droppedTransportError
  else if isConsensusNode = false then .droppedNotConsensusNode
  else
    match decoded with
    | none => .droppedDecodeException
    | some .CommittedProposalRequest => .routedToLogSyncCommitted
    | some .PreparedProposalRequest => .routedToLogSyncPrepared
    | some pt => .enqueued pt

/-- Translation of `PBFT::asyncNotifyConsensusMessage`: forward the
delivery to `onReceivePBFTMessage` (which never throws, as its body is
wrapped in try/catch), then call `_onRecv(nullptr)`.  The second
component lists the `_onRecv` invocations with their error argument
(none = nullptr). -/
def asyncNotifyConsensusMessage (errorIsSuccess isConsensusNode : Bool)
    (decoded : Option PacketType) : RecvOutcome × List (Option Nat) :=
  (onReceivePBFTMessage errorIsSuccess isConsensusNode decoded, [Option.none])

/-- Distinct-sender weight of a ViewChange list, as the specification
words it: each sender's weight contributes at most once, however many
messages from that sender appear in the list. -/
def distinctSenderWeight (cfg : PBFTConfig) (l : List ViewChangeMsg) : Nat :=
  ((l.map ViewChangeMsg.generatedFrom).dedup.map
    (fun idx => (getConsensusNodeByIndex cfg idx).getD 0)).sum

/-- The acceptance condition of `handleViewChange` as the specification
words it: committed-proposal index at least the local committed index
with matching hashes on equality, view strictly above the config view,
and every carried prepared proposal passing `checkPrecommitMsg`. -/
def specViewChangeValid (cfg : PBFTConfig) (env : EngineEnv) (vc : ViewChangeMsg) : Bool :=
  decide (cfg.committedProposal.index ≤ vc.committedProposal.index) &&
  decide (vc.committedProposal.index = cfg.committedProposal.index →
          vc.committedProposal.hash = cfg.committedProposal.hash) &&
  decide (cfg.view < vc.view) &&
  vc.preparedProposals.all env.checkPrecommitMsg

/-! Concrete fixtures: a 4-node configuration (weights all 1, quorum 3)
and a no-op oracle environment, used by the concrete evaluations. -/

/-- Four consensus nodes with indices 0..3 and weight 1 each. -/
def sampleNodes : List (Nat × Nat) := [(0, 1), (1, 1), (2, 1), (3, 1)]

/-- Sample configuration: local node 0, view 0, committed proposal
(0, 0), quorum 3, next-view leader 1, current-view leader function
constantly 0, empty hash 99. -/
def cfgA : PBFTConfig :=
  { view := 0, toView := 1, nodeIndex := 0, progressedIndex := 0, highWaterMark := 10,
    committedProposal := ⟨0, 0⟩, minRequiredQuorum := 3, nodes := sampleNodes,
    leaderAfterViewChange := 1, leaderIndex := fun _ => 0, emptyHash := 99 }

/-- Oracle environment with empty caches: no cached PrePrepare, no
conflicts, every precommit certificate valid, no NewView produced. -/
def envA : EngineEnv :=
  { existPrePrepare := fun _ => false, conflictWithPrecommitReq := fun _ => false,
    conflictWithProcessedReq := fun _ => false, checkPrecommitMsg := fun _ => true,
    tryToFillProposal := fun _ => false, checkAndTryIntoNewView := fun _ => none,
    removeInvalidViewChange := fun l => l, populateCommittedProposal := ⟨0, 0⟩,
    preCommitCachesWithoutData := [] }

/-- A ViewChange for view 1 from node `i`, consistent with `cfgA`'s
committed proposal, carrying no prepared proposals, validly signed. -/
def vcFrom (i : Nat) : ViewChangeMsg :=
  { view := 1, generatedFrom := i, committedProposal := ⟨0, 0⟩,
    preparedProposals := [], sigValid := true }

/-- A NewView for view 1 whose justification repeats the single sender 0
three times. -/
def nvRepeated : NewViewMsg :=
  { view := 1, index := 1, generatedFrom := 1,
    viewChangeMsgList := [vcFrom 0, vcFrom 0, vcFrom 0],
    prePrepareList := [], sigValid := true }

/-- A PrePrepare for index 1 from node 0 (the leader under `cfgA`),
validly signed. -/
def mB : PBFTMessage :=
  { index := 1, view := 0, generatedFrom := 0, hash := 5, sigValid := true }

/-- A ViewChange from node 2 whose signature verification fails but
which passes every other check of `isValidViewChangeMsg`. -/
def vcBadSig : ViewChangeMsg :=
  { view := 1, generatedFrom := 2, committedProposal := ⟨0, 0⟩,
    preparedProposals := [], sigValid := false }

/-- A NewView for view 1 whose `index` (2) differs from
`cfgA.leaderAfterViewChange` (1), justified by three distinct senders. -/
def nvWrongLeader : NewViewMsg :=
  { view := 1, index := 2, generatedFrom := 2,
    viewChangeMsgList := [vcFrom 0, vcFrom 2, vcFrom 3],
    prePrepareList := [], sigValid := true }

/-- An empty-block PrePrepare (hash = `cfgA.emptyHash`) for index 1
generated from node 1, which is not `cfgA.leaderIndex 1 = 0`. -/
def pEmpty : PBFTMessage :=
  { index := 1, view := 1, generatedFrom := 1, hash := 99, sigValid := true }

/-- A NewView whose PrePrepare list holds only the empty-block
PrePrepare `pEmpty`. -/
def nvEmptyBlock : NewViewMsg :=
  { view := 1, index := 1, generatedFrom := 1, viewChangeMsgList := [],
    prePrepareList := [pEmpty], sigValid := true }

/-- A Prepare whose `generatedFrom` equals `cfgA.nodeIndex`. -/
def mSelf : PBFTMessage :=
  { index := 1, view := 0, generatedFrom := 0, hash := 7, sigValid := true }

/-- Bridge lemma: the engine's ViewChange validity check computes exactly
the specification's acceptance condition (the discarded signature check
plays no role). -/
theorem isValidViewChangeMsg_eq_spec (cfg : PBFTConfig) (env : EngineEnv)
    (vc : ViewChangeMsg) :
    isValidViewChangeMsg cfg env vc = specViewChangeValid cfg env vc := by
  unfold isValidViewChangeMsg specViewChangeValid
  by_cases h1 : vc.committedProposal.index < cfg.committedProposal.index
  · have hle : ¬ (cfg.committedProposal.index ≤ vc.committedProposal.index) := by omega
    simp [h1, hle]
  by_cases h2 : vc.view ≤ cfg.view
  · have hlt : ¬ (cfg.view < vc.view) := by omega
    simp [h1, h2, hlt]
  by_cases h3 : vc.committedProposal.index = cfg.committedProposal.index ∧
      vc.committedProposal.hash ≠ cfg.committedProposal.hash
  · have himp : ¬ (vc.committedProposal.index = cfg.committedProposal.index →
        vc.committedProposal.hash = cfg.committedProposal.hash) :=
      fun hf => h3.2 (hf h3.1)
    simp [h1, h2, h3, himp]
  by_cases h4 : vc.preparedProposals.all env.checkPrecommitMsg = true
  · have hle : cfg.committedProposal.index ≤ vc.committedProposal.index := by omega
    have hlt : cfg.view < vc.view := by omega
    have himp : vc.committedProposal.index = cfg.committedProposal.index →
        vc.committedProposal.hash = cfg.committedProposal.hash := by
      intro hi
      by_contra hh
      exact h3 ⟨hi, hh⟩
    simp [h1, h2, h3, h4, hle, hlt, himp]
    tauto
  · have h4f : vc.preparedProposals.all env.checkPrecommitMsg = false := by
      simpa using h4
    simp [h1, h2, h3, h4, h4f]

/-- C5: `handleViewChangeMsg` accepts a ViewChange iff (a) its committed
proposal's index is at least the local committed index with matching
hashes on equality, (b) its view is strictly greater than the config
view, and (c) every carried prepared proposal passes `checkPrecommitMsg`;
on rejection the caches are unchanged and no NewView is produced, on
acceptance the message is appended to the ViewChange cache and quorum is
re-checked via `checkAndTryIntoNewView`. -/
theorem handleViewChangeMsg_spec (cfg : PBFTConfig) (env : EngineEnv)
    (st : CacheState) (vc : ViewChangeMsg) :
    handleViewChangeMsg cfg env st vc =
      (if specViewChangeValid cfg env vc then
        (true, { st with viewChangeCache := st.viewChangeCache ++ [vc] },
         env.checkAndTryIntoNewView (st.viewChangeCache ++ [vc]))
      else (false, st, none)) := by
  unfold handleViewChangeMsg
  rw [isValidViewChangeMsg_eq_spec]
  cases h : specViewChangeValid cfg env vc <;> simp [h]

/-- C7: `checkPBFTMsgState` returns INVALID exactly when the index is
below the progressed index, at or beyond the high water mark, or the
view is below the config view; in particular the index equal to the high
water mark is rejected while high water mark minus one passes when the
other fields are in range. -/
theorem checkPBFTMsgState_spec (cfg : PBFTConfig) (index view : Nat) :
    (checkPBFTMsgState cfg index view = .INVALID ↔
      index < cfg.progressedIndex ∨ cfg.highWaterMark ≤ index ∨ view < cfg.view)
    ∧ checkPBFTMsgState cfg cfg.highWaterMark view = .INVALID
    ∧ (cfg.progressedIndex < cfg.highWaterMark → cfg.view ≤ view →
        checkPBFTMsgState cfg (cfg.highWaterMark - 1) view = .VALID) := by
  refine ⟨?_, ?_, ?_⟩ <;> unfold checkPBFTMsgState
  · split_ifs with ha hb
    · simp only [true_iff]
      omega
    · simp only [true_iff]
      omega
    · constructor
      · intro hcontra
        cases hcontra
      · intro hor
        omega
  · have hcond : cfg.highWaterMark < cfg.progressedIndex ∨
        cfg.highWaterMark ≤ cfg.highWaterMark := Or.inr (le_refl _)
    rw [if_pos hcond]
  · intro h1 h2
    have hcond : ¬ (cfg.highWaterMark - 1 < cfg.progressedIndex ∨
        cfg.highWaterMark ≤ cfg.highWaterMark - 1) := by omega
    have hview : ¬ (view < cfg.view) := by omega
    rw [if_neg hcond, if_neg hview]

/-- Witness for C7 at the sample configuration: the index one below the
high water mark passes the state check. -/
theorem checkPBFTMsgState_spec_witness :
    checkPBFTMsgState cfgA (cfgA.highWaterMark - 1) 0 = .VALID :=
  (checkPBFTMsgState_spec cfgA 0 0).2.2 (by decide) (by decide)

/-- C8: `onTimeout` increments `toView` by one, purges the invalid
ViewChange entries, broadcasts a ViewChange carrying
`populateCommittedProposal` and `preCommitCachesWithoutData`, inserts the
node's own ViewChange into the cache, runs `checkAndTryIntoNewView`, and
re-handles the PrePrepare proposals exactly when a NewView is produced —
in that order. -/
theorem onTimeout_spec (cfg : PBFTConfig) (env : EngineEnv) (st : CacheState) :
    onTimeout cfg env st =
      ({ cfg with toView := cfg.toView + 1 },
       { st with viewChangeCache :=
           env.removeInvalidViewChange st.viewChangeCache ++
             [makeViewChangeReq { cfg with toView := cfg.toView + 1 } env] },
       [EngineAction.incToView 1, EngineAction.removeInvalidViewChange,
        EngineAction.broadcastViewChange
          (makeViewChangeReq { cfg with toView := cfg.toView + 1 } env),
        EngineAction.addViewChangeReq
          (makeViewChangeReq { cfg with toView := cfg.toView + 1 } env),
        EngineAction.checkNewViewQuorum] ++
         (match env.checkAndTryIntoNewView
             (env.removeInvalidViewChange st.viewChangeCache ++
               [makeViewChangeReq { cfg with toView := cfg.toView + 1 } env]) with
          | some nv => [EngineAction.reHandleNewView nv]
          | none => []))
    ∧ (makeViewChangeReq { cfg with toView := cfg.toView + 1 } env).committedProposal =
        env.populateCommittedProposal
    ∧ (makeViewChangeReq { cfg with toView := cfg.toView + 1 } env).preparedProposals =
        env.preCommitCachesWithoutData := by
  refine ⟨?_, rfl, rfl⟩
  unfold onTimeout broadcastViewChangeReq
  cases h : env.checkAndTryIntoNewView
      (env.removeInvalidViewChange st.viewChangeCache ++
        [makeViewChangeReq { cfg with toView := cfg.toView + 1 } env]) <;>
    simp [h]

/-- C9: a Prepare or Commit message generated from the local node index
is rejected by its handler with the caches left unchanged, while the
local Prepare vote enters the cache directly through
`broadcastPrepareMsg` inside a successful `handlePrePrepareMsg`. -/
theorem self_originated_rejected (cfg : PBFTConfig) (env : EngineEnv) (st : CacheState) :
    (∀ m : PBFTMessage, m.generatedFrom = cfg.nodeIndex →
        handlePrepareMsg cfg env st m = (false, st)) ∧
    (∀ m : PBFTMessage, m.generatedFrom = cfg.nodeIndex →
        handleCommitMsg cfg env st m = (false, st)) ∧
    (∀ (m : PBFTMessage) (fromNV : Bool),
        (handlePrePrepareMsg cfg env st m false fromNV).ret = true →
        (handlePrePrepareMsg cfg env st m false fromNV).caches.prepareCache =
          st.prepareCache ++ [localPrepareMsg cfg m] ∧
        (localPrepareMsg cfg m).generatedFrom = cfg.nodeIndex) := by
  have hc : ∀ m : PBFTMessage, m.generatedFrom = cfg.nodeIndex →
      checkPBFTMsg cfg env m = .INVALID := by
    intro m h
    unfold checkPBFTMsg
    by_cases hs : checkPBFTMsgState cfg m.index m.view = .INVALID
    · simp [hs]
    · simp [hs, h]
  refine ⟨?_, ?_, ?_⟩
  · intro m h
    simp [handlePrepareMsg, hc m h]
  · intro m h
    simp [handleCommitMsg, hc m h]
  · intro m fromNV hr
    unfold handlePrePrepareMsg at hr ⊢
    split_ifs at hr ⊢ <;> simp_all [localPrepareMsg]

/-- Witness for C9 at the sample configuration: the self-originated
Prepare and Commit are rejected, and the successful PrePrepare handling
of `mB` inserts the local Prepare vote directly. -/
theorem self_originated_rejected_witness :
    handlePrepareMsg cfgA envA emptyCaches mSelf = (false, emptyCaches) ∧
    handleCommitMsg cfgA envA emptyCaches mSelf = (false, emptyCaches) ∧
    (handlePrePrepareMsg cfgA envA emptyCaches mB false false).caches.prepareCache =
      emptyCaches.prepareCache ++ [localPrepareMsg cfgA mB] :=
  ⟨(self_originated_rejected cfgA envA emptyCaches).1 mSelf rfl,
   (self_originated_rejected cfgA envA emptyCaches).2.1 mSelf rfl,
   ((self_originated_rejected cfgA envA emptyCaches).2.2 mB false rfl).1⟩

/-- C10: `asyncNotifyConsensusMessage` invokes `_onRecv` exactly once
with a null error, whatever the transport error state, consensus-node
membership, and decode result of the delivery. -/
theorem asyncNotify_onRecv_once (errorIsSuccess isConsensusNode : Bool)
    (decoded : Option PacketType) :
    (asyncNotifyConsensusMessage errorIsSuccess isConsensusNode decoded).2 =
      [Option.none] := rfl

/-- C1: the NewView quorum check of `isValidNewViewMsg` sums one weight
per listed ViewChange without deduplicating senders: a NewView justified
by three copies of the same ViewChange from node 0 (distinct-sender
weight 1, quorum 3) is accepted and re-handled. -/
theorem newview_quorum_counts_repeated_sender :
    handleNewViewMsg cfgA envA nvRepeated = (true, true) ∧
    distinctSenderWeight cfgA nvRepeated.viewChangeMsgList = 1 ∧
    cfgA.minRequiredQuorum = 3 := by
  refine ⟨?_, ?_, rfl⟩ <;> rfl

/-- C2: when the proposal-verification callback fires with a success
error code and a false verification result, the source falls through and
re-enters `handlePrePrepareMsg` with verification off: the PrePrepare is
cached and a Prepare is broadcast instead of being dropped. -/
theorem verify_failure_not_dropped :
    (onVerifyProposalFinished cfgA envA emptyCaches mB true false).caches.prePrepareCache =
      [mB] ∧
    (onVerifyProposalFinished cfgA envA emptyCaches mB true false).broadcastPrepare = true ∧
    (onVerifyProposalFinished cfgA envA emptyCaches mB true false).ret = true := by
  refine ⟨rfl, rfl, rfl⟩

/-- C3: a ViewChange whose sender signature fails verification is still
accepted and stored by `handleViewChangeMsg`, because
`isValidViewChangeMsg` discards the `checkSignature` result. -/
theorem viewchange_bad_signature_stored :
    checkSignature cfgA vcBadSig.generatedFrom vcBadSig.sigValid = .INVALID ∧
    handleViewChangeMsg cfgA envA emptyCaches vcBadSig =
      (true, { emptyCaches with viewChangeCache := [vcBadSig] }, none) := by
  refine ⟨rfl, rfl⟩

/-- C4: a NewView whose `index` differs from `leaderAfterViewChange` is
still accepted by `handleNewViewMsg` and `reHandlePrePrepareProposals`
is invoked, because `isValidNewViewMsg` only logs the leader mismatch. -/
theorem newview_wrong_leader_accepted :
    cfgA.leaderAfterViewChange ≠ nvWrongLeader.index ∧
    handleNewViewMsg cfgA envA nvWrongLeader = (true, true) := by
  refine ⟨by decide, rfl⟩

/-- C6: the empty-block PrePrepare of a NewView is fed to
`handlePrePrepareMsg` with `generatedFromNewView = false`, so the leader
identity check runs and rejects it when the sender differs from the
current-view leader; the same call with `generatedFromNewView = true`
(as the claim requires) would accept it. -/
theorem empty_block_not_fed_as_from_new_view :
    pEmpty.hash = cfgA.emptyHash ∧
    cfgA.leaderIndex pEmpty.index ≠ pEmpty.generatedFrom ∧
    (reHandlePrePrepareProposals cfgA envA emptyCaches nvEmptyBlock).2 =
      (emptyCaches, [ReHandleAction.handledPrePrepare pEmpty false]) ∧
    (handlePrePrepareMsg cfgA envA emptyCaches pEmpty false true).ret = true := by
  refine ⟨rfl, by decide, rfl, rfl⟩

end BcosPbft
